import Mathlib

/-!
Shallow embedding of the CSV-exploration pipeline of `src/pratique2/app.py`:
loading (`load_csv` with its exception taxonomy and latin-1 retry), column
classification (`list_numeric_columns`), per-entry numeric coercion
(`pd.to_numeric(errors='coerce')`), aggregation (mean / median with NaN
skipping), chart data preparation (line / bar / histogram with the
altair-primary, matplotlib-fallback binning), and CSV re-serialization
(`DataFrame.to_csv(index=False)`).

Machine floats of the source are modelled as exact rationals; a pandas
missing value (NaN) is modelled as `Option.none`; a python exception that a
component can raise is modelled as an `Except` error value.

The rational arithmetic of the standard library is made semireducible again
so that concrete runs of the embedded pipeline can be checked by `decide`;
this changes nothing about the definitions, only how eagerly the elaborator
unfolds them.
-/

set_option allowUnsafeReducibility true

set_option maxRecDepth 16000

attribute [local semireducible] Rat.mul Rat.inv Rat.add Rat.sub

namespace CSVApp

/-! ### Powers of ten and integer logarithms

The altair (vega) binning algorithm computes `round(log10 span)` and
`ceil(log10 maxbins)` on floats; here they are computed exactly on rationals
by bounded search over the exponent range that the app can reach. -/

/-- `10 ^ k` as a rational, for an integer exponent. -/
def qpow10 (k : ℤ) : ℚ :=
  if 0 ≤ k then ((10 : ℚ) ^ k.toNat) else 1 / ((10 : ℚ) ^ (-k).toNat)

/-- ASCII decimal digit test. -/
def isDigit (c : Char) : Bool := 48 ≤ c.toNat && c.toNat ≤ 57

/-- Digits to a natural number, most significant first. -/
def digitsToNat (ds : List Char) : ℕ :=
  ds.foldl (fun a c => a * 10 + (c.toNat - 48)) 0

/-- Parse the exponent suffix (after `e`/`E`) and apply it to `v`. -/
def applyExp (v : ℚ) (cs : List Char) : Option ℚ :=
  let p : ℤ × List Char :=
    match cs with
    | '+' :: t => (1, t)
    | '-' :: t => (-1, t)
    | t => (1, t)
  let ds := p.2.takeWhile isDigit
  let rest := p.2.dropWhile isDigit
  if ds.isEmpty || !rest.isEmpty then none
  else some (v * qpow10 (p.1 * (digitsToNat ds : ℤ)))

/-- Parse a numeric literal from characters: sign, integer part, optional
fractional part, optional exponent.  Returns `none` when the characters do
not form a number. -/
def parseNumChars (cs : List Char) : Option ℚ :=
  let p : ℚ × List Char :=
    match cs with
    | '+' :: t => (1, t)
    | '-' :: t => (-1, t)
    | t => (1, t)
  let intPart := p.2.takeWhile isDigit
  let cs2 := p.2.dropWhile isDigit
  let q : List Char × List Char :=
    match cs2 with
    | '.' :: t => (t.takeWhile isDigit, t.dropWhile isDigit)
    | t => ([], t)
  let fracPart := q.1
  let cs3 := if (match cs2 with | '.' :: _ => true | _ => false) then q.2 else cs2
  if intPart.isEmpty && fracPart.isEmpty then none
  else
    let mant : ℚ :=
      (digitsToNat intPart : ℚ) + (digitsToNat fracPart : ℚ) / ((10 : ℚ) ^ fracPart.length)
    match cs3 with
    | [] => some (p.1 * mant)
    | 'e' :: t => applyExp (p.1 * mant) t
    | 'E' :: t => applyExp (p.1 * mant) t
    | _ => none

/-- Parse a numeric string (the value grammar of pandas' reader and of
`pd.to_numeric`). -/
def parseNum (s : String) : Option ℚ := parseNumChars s.toList

/-! ### Data model -/

/-- Per-column inferred dtype: pandas' numeric dtypes (`int64`/`float64`)
versus everything else (`object`). -/
inductive Dtype
  | numeric
  | object
deriving DecidableEq

/-- One cell of a loaded table: a missing value (NaN), a number, or a string. -/
inductive Cell
  | missing
  | num (q : ℚ)
  | str (s : String)
deriving DecidableEq

/-- A named, typed column of a loaded table. -/
structure Column where
  name : String
  dtype : Dtype
  cells : List Cell
deriving DecidableEq

/-- A loaded table: the ordered sequence of its columns. -/
abbrev Table := List Column

/-- The spec's error taxonomy for the loader. -/
inductive ErrorKind
  | noFile
  | emptyData
  | encodingError
  | parseError
  | unknown
deriving DecidableEq

/-- The loader's observable outcome: a table, or a tagged failure with the
user-visible message the app would display. -/
inductive LoadOutcome
  | success (t : Table)
  | failure (k : ErrorKind) (msg : String)
deriving DecidableEq

/-- The exceptions `pd.read_csv` can raise, as caught in `load_csv`:
`pd.errors.EmptyDataError`, `UnicodeDecodeError`, `pd.errors.ParserError`,
and any other exception with its message. -/
inductive PdErr
  | emptyDataError
  | unicodeDecodeError
  | parserError
  | other (msg : String)
deriving DecidableEq

/-! ### Byte decoding

Python's default text decoding (UTF-8, raising `UnicodeDecodeError` on
invalid sequences) and the permissive `latin-1` decoding used by the retry,
which maps every byte to the character with that code point. -/

/-- UTF-8 continuation byte test. -/
def isCont (b : ℕ) : Bool := 128 ≤ b && b ≤ 191

/-- Decode a UTF-8 byte list; `none` models `UnicodeDecodeError`. -/
def utf8Decode : List ℕ → Option (List Char)
  | [] => some []
  | b :: rest =>
    if b ≤ 127 then
      (utf8Decode rest).map (fun cs => Char.ofNat b :: cs)
    else if b ≤ 193 then none
    else if b ≤ 223 then
      match rest with
      | c1 :: rest2 =>
        if isCont c1 then
          (utf8Decode rest2).map (fun cs => Char.ofNat ((b - 192) * 64 + (c1 - 128)) :: cs)
        else none
      | [] => none
    else if b ≤ 239 then
      match rest with
      | c1 :: c2 :: rest3 =>
        if isCont c1 && isCont c2 then
          (utf8Decode rest3).map
            (fun cs => Char.ofNat ((b - 224) * 4096 + (c1 - 128) * 64 + (c2 - 128)) :: cs)
        else none
      | _ => none
    else if b ≤ 244 then
      match rest with
      | c1 :: c2 :: c3 :: rest4 =>
        if isCont c1 && isCont c2 && isCont c3 then
          (utf8Decode rest4).map
            (fun cs =>
              Char.ofNat ((b - 240) * 262144 + (c1 - 128) * 4096 + (c2 - 128) * 64 + (c3 - 128)) :: cs)
        else none
      | _ => none
    else none

/-- Latin-1 decoding: total, one character per byte. -/
def latin1Decode (bs : List ℕ) : List Char := bs.map Char.ofNat

/-- The byte stream of an ASCII string, for concrete inputs. -/
def asciiBytes (s : String) : List ℕ := s.toList.map Char.toNat

/-! ### CSV parsing (model of `pd.read_csv`)

Comma separator, header row from the first non-blank line, blank lines
skipped, rows shorter than the header padded with missing values, rows
longer than the header a `ParserError`, the pandas default NA strings
mapped to missing, and per-column dtype inference (a column is numeric when
it is non-empty and every non-missing entry parses as a number; a column of
a zero-row frame gets `object` dtype). -/

/-- Split a character list at every occurrence of `sep` (never empty). -/
def splitOnAux (sep : Char) : List Char → List Char → List (List Char)
  | [], acc => [acc.reverse]
  | c :: cs, acc =>
    if c = sep then acc.reverse :: splitOnAux sep cs [] else splitOnAux sep cs (c :: acc)

/-- Split a character list on a separator character. -/
def splitOnChar (sep : Char) (l : List Char) : List (List Char) := splitOnAux sep l []

/-- The pandas default missing-value sentinels that the claims can reach. -/
def naStrings : List String := ["", "nan", "NaN", "NAN", "NULL", "null", "NA", "n/a", "N/A"]

/-- A raw field, as an optional string: `none` when the field is an
NA sentinel (missing). -/
def fieldToRaw (f : List Char) : Option String :=
  let s := String.mk f
  if naStrings.contains s then none else some s

/-- Split a data line into its comma-separated fields. -/
def rowFields (l : List Char) : List (List Char) := splitOnChar ',' l

/-- A raw entry is numeric-or-missing: the classification pandas' dtype
inference applies to each entry. -/
def fieldIsNumericOrMissing : Option String → Bool
  | none => true
  | some s => (parseNum s).isSome

/-- Build one typed column from its name and raw entries, inferring the
dtype the way pandas does: numeric iff the column has at least one row and
every non-missing entry parses as a number (an empty column gets `object`). -/
def inferCol (name : String) (raw : List (Option String)) : Column :=
  if !raw.isEmpty && raw.all fieldIsNumericOrMissing then
    ⟨name, .numeric,
      raw.map (fun o => match o.bind parseNum with
        | some q => .num q
        | none => .missing)⟩
  else
    ⟨name, .object,
      raw.map (fun o => match o with
        | some s => .str s
        | none => .missing)⟩

/-- Parse decoded CSV text into a table, or raise one of the reader's
exceptions (`EmptyDataError` when no non-blank line exists, `ParserError`
when a row has more fields than the header). -/
def parseCSVChars (cs : List Char) : Except PdErr Table :=
  match (splitOnChar '\n' cs).filter (fun l => !l.isEmpty) with
  | [] => .error .emptyDataError
  | hline :: rlines =>
    let hdr := (rowFields hline).map String.mk
    let rows := rlines.map rowFields
    if rows.any (fun r => hdr.length < r.length) then .error .parserError
    else
      .ok (hdr.enum.map
        (fun p => inferCol p.2 (rows.map (fun r => (r.get? p.1).bind fieldToRaw))))

/-- `pd.read_csv` on a byte stream under a given text decoding: decode the
bytes (a failure is `UnicodeDecodeError`) then parse the text. -/
def parsePandas (decode : List ℕ → Option (List Char)) (bytes : List ℕ) : Except PdErr Table :=
  match decode bytes with
  | none => .error .unicodeDecodeError
  | some cs => parseCSVChars cs

/-- The first read attempt: default (UTF-8) decoding. -/
def parseDefault : List ℕ → Except PdErr Table := parsePandas utf8Decode

/-- The retry attempt: permissive latin-1 decoding (never a decode error). -/
def parseLatin : List ℕ → Except PdErr Table := parsePandas (fun bs => some (latin1Decode bs))

/-! ### The loader (`load_csv`) -/

/-- The message displayed when the latin-1 retry also fails. -/
def encodingMsg : String :=
  "Erreur encodage du fichier CSV. Essayez un encodage different (ex: UTF-8 / latin-1)."

/-- `load_csv`, generic in the two read attempts it delegates to: the
exception-handling skeleton of `src/pratique2/app.py` lines 6-73.  `none`
input is the absent file; each `except` arm of the source returns the
corresponding tagged failure; a `UnicodeDecodeError` from the first attempt
triggers exactly one retry with the second (latin-1) reader, whose own
failure of any kind becomes the encoding failure. -/
def load_csv_with (p pl : List ℕ → Except PdErr Table) (file : Option (List ℕ)) : LoadOutcome :=
  match file with
  | none => .failure .noFile "Aucun fichier fourni."
  | some bytes =>
    match p bytes with
    | .ok df => .success df
    | .error .emptyDataError => .failure .emptyData "Le fichier CSV est vide."
    | .error .unicodeDecodeError =>
      match pl bytes with
      | .ok df => .success df
      | .error _ => .failure .encodingError encodingMsg
    | .error .parserError => .failure .parseError "Erreur analyse du CSV (format invalide)."
    | .error (.other msg) => .failure .unknown ("Impossible de lire le fichier CSV: " ++ msg)

/-- `load_csv` with the concrete pandas reader: default decoding first,
latin-1 on a decode error. -/
def load_csv (file : Option (List ℕ)) : LoadOutcome :=
  load_csv_with parseDefault parseLatin file

/-! ### Column classifier (`list_numeric_columns`) -/

/-- `list_numeric_columns` (lines 76-99): `[]` for an absent table, else the
names of the columns whose dtype is numeric (`select_dtypes(include="number")`),
in column order. -/
def list_numeric_columns (df : Option Table) : List String :=
  match df with
  | none => []
  | some t => (t.filter (fun c => c.dtype == Dtype.numeric)).map (fun c => c.name)

/-! ### Coercer (`pd.to_numeric(..., errors='coerce')`, line 156) -/

/-- Per-entry coercion: a number stays, a string is parsed, anything
unconvertible (and missing) becomes the missing marker. -/
def coerceCell : Cell → Option ℚ
  | .missing => none
  | .num q => some q
  | .str s => parseNum s

/-- `pd.to_numeric(col, errors='coerce')`: coerce every entry in place. -/
def to_numeric (cells : List Cell) : List (Option ℚ) := cells.map coerceCell

/-! ### Aggregator (`mean` / `median`, lines 160-163)

pandas skips missing values (`skipna=True`); on an all-missing series both
return NaN, modelled as `none`. -/

/-- `Series.dropna()`: the present values, in order. -/
def dropna (s : List (Option ℚ)) : List ℚ := s.filterMap id

/-- Mean of a plain list; `none` when it is empty. -/
def meanList (xs : List ℚ) : Option ℚ :=
  if xs.length = 0 then none else some (xs.sum / (xs.length : ℚ))

/-- `Series.mean()`: mean over the present values only. -/
def mean (s : List (Option ℚ)) : Option ℚ := meanList (dropna s)

/-- Insert into a sorted list (ascending). -/
def insertSorted (x : ℚ) : List ℚ → List ℚ
  | [] => [x]
  | y :: ys => if x ≤ y then x :: y :: ys else y :: insertSorted x ys

/-- Insertion sort, ascending. -/
def sortQ (xs : List ℚ) : List ℚ := xs.foldr insertSorted []

/-- Median of a plain list with pandas' linear interpolation: the middle
element for odd length, the average of the two middle elements for even
length, `none` when empty. -/
def medianList (xs : List ℚ) : Option ℚ :=
  let s := sortQ xs
  let n := s.length
  if n = 0 then none
  else if n % 2 = 1 then s.get? (n / 2)
  else
    match s.get? (n / 2 - 1), s.get? (n / 2) with
    | some a, some b => some ((a + b) / 2)
    | _, _ => none

/-- `Series.median()`: median over the present values only. -/
def median (s : List (Option ℚ)) : Option ℚ := medianList (dropna s)

/-! ### Chart data (lines 166-193) -/

/-- Bar chart data: `col_series.dropna().head(100)` — the first 100 present
values, in order. -/
def barData (s : List (Option ℚ)) : List ℚ := (dropna s).take 100

/-- `df.head(n)`: the first `n` rows of every column. -/
def tableHead (n : ℕ) (t : Table) : Table :=
  t.map (fun c => ⟨c.name, c.dtype, c.cells.take n⟩)

/-- Decimal digits of the fractional part `n / d` (0 ≤ n < d), fuel-bounded. -/
def fracDigitsAux : ℕ → ℕ → ℕ → List Char
  | 0, _, _ => []
  | _, _, 0 => []
  | fuel + 1, n, d =>
    if n = 0 then [] else Char.ofNat (48 + n * 10 / d) :: fracDigitsAux fuel (n * 10 % d) d

/-- Decimal rendering of a rational cell value. -/
def ratStr (q : ℚ) : String :=
  if q.den = 1 then toString q.num
  else
    (if q < 0 then "-" else "") ++ toString (q.num.natAbs / q.den) ++ "." ++
      String.mk (fracDigitsAux 40 (q.num.natAbs % q.den) q.den)

/-- Serialization of one cell: missing writes nothing. -/
def cellStr : Cell → String
  | .missing => ""
  | .num q => ratStr q
  | .str s => s

/-- Row count of a table (uniform across columns for loaded tables). -/
def rowCount (t : Table) : ℕ := t.foldr (fun c m => max c.cells.length m) 0

/-- Comma-join a list of strings. -/
def joinComma (l : List String) : String := String.intercalate "," l

/-- `DataFrame.to_csv(index=False)`: header row then one line per row, each
terminated by a newline, comma separated, no index column. -/
def to_csv (t : Table) : String :=
  joinComma (t.map (fun c => c.name)) ++ "\n" ++
    String.join ((List.range (rowCount t)).map
      (fun i => joinComma (t.map (fun c => cellStr ((c.cells.get? i).getD .missing))) ++ "\n"))

/-- The payload of the download button (line 197): the full loaded table,
serialized — not the displayed head-truncated one. -/
def downloadPayload (t : Table) : String := to_csv t

/-- Equality of parse outcomes is decidable. -/
instance : DecidableEq (Except PdErr Table) := fun a b =>
  match a, b with
  | .ok x, .ok y =>
    if h : x = y then .isTrue (by rw [h]) else .isFalse (by simp [h])
  | .error x, .error y =>
    if h : x = y then .isTrue (by rw [h]) else .isFalse (by simp [h])
  | .ok _, .error _ => .isFalse (by simp)
  | .error _, .ok _ => .isFalse (by simp)

/-- A concrete loadable table of six rows in one string column, used to
exhibit the behaviour of the download payload under display truncation. -/
def sixRowTable : Table :=
  [⟨"a", .object, [.str "x", .str "y", .str "z", .str "u", .str "v", .str "w"]⟩]

/-! ## Helper lemmas -/

/-- Splitting never yields an empty list of pieces. -/
theorem splitOnAux_ne_nil (sep : Char) : ∀ (l acc : List Char), splitOnAux sep l acc ≠ []
  | [], acc => by simp [splitOnAux]
  | c :: cs, acc => by
    by_cases h : c = sep
    · simp [splitOnAux, h]
    · simpa [splitOnAux, h] using splitOnAux_ne_nil sep cs (c :: acc)

/-- A successful CSV parse always produces at least one column. -/
theorem parseCSVChars_ok_ne_nil (cs : List Char) (t : Table)
    (h : parseCSVChars cs = .ok t) : t ≠ [] := by
  simp only [parseCSVChars] at h
  split at h
  · exact absurd h (by simp)
  · next hline rlines heq =>
    split at h
    · exact absurd h (by simp)
    · injection h with h
      subst h
      intro hnil
      rw [List.map_eq_nil_iff] at hnil
      have : ((rowFields hline).map String.mk) = [] := by
        cases hmk : (rowFields hline).map String.mk with
        | nil => rfl
        | cons a l => rw [hmk] at hnil; exact absurd hnil (by simp [List.enum])
      rw [List.map_eq_nil_iff] at this
      exact splitOnAux_ne_nil ',' hline [] this

/-- A successful `read_csv` under any decoding produces at least one column. -/
theorem parsePandas_ok_ne_nil (d : List ℕ → Option (List Char)) (bytes : List ℕ) (t : Table)
    (h : parsePandas d bytes = .ok t) : t ≠ [] := by
  unfold parsePandas at h
  split at h
  · exact absurd h (by simp)
  · exact parseCSVChars_ok_ne_nil _ _ h

/-- The dtype `inferCol` assigns, explicitly. -/
theorem inferCol_dtype (name : String) (raw : List (Option String)) :
    (inferCol name raw).dtype =
      (if !raw.isEmpty && raw.all fieldIsNumericOrMissing then Dtype.numeric else Dtype.object) := by
  unfold inferCol
  split <;> simp_all

/-- `inferCol` keeps the column name. -/
theorem inferCol_name (name : String) (raw : List (Option String)) :
    (inferCol name raw).name = name := by
  unfold inferCol
  split <;> rfl

/-- On an all-missing series, `dropna` removes everything. -/
theorem dropna_eq_nil_of_all_none : ∀ s : List (Option ℚ),
    s.all (fun x => x.isNone) → dropna s = []
  | [], _ => rfl
  | none :: t, h => by
    simpa [dropna] using dropna_eq_nil_of_all_none t (by simpa [List.all_cons] using h)
  | some x :: t, h => by simp [List.all_cons] at h

/-! ## Claims -/

/-- C3: `summarize` computes mean and median over only the present
(non-missing) entries — on `[1, 2, 3, missing, 5]` it yields mean `11/4`
and median `5/2` — and on an all-missing series both are the `none`
(NoData / NaN) result, never a numeric default. -/
theorem summarize_skips_missing :
    mean [some 1, some 2, some 3, none, some 5] = some (11 / 4) ∧
    median [some 1, some 2, some 3, none, some 5] = some (5 / 2) ∧
    (∀ s : List (Option ℚ), mean s = meanList (dropna s) ∧ median s = medianList (dropna s)) ∧
    (∀ s : List (Option ℚ), s.all (fun x => x.isNone) → mean s = none ∧ median s = none) := by
  refine ⟨by decide, by decide, fun s => ⟨rfl, rfl⟩, fun s h => ?_⟩
  rw [mean, median, dropna_eq_nil_of_all_none s h]
  exact ⟨rfl, rfl⟩

/-- Witness for C3 at a concrete all-missing series. -/
theorem summarize_skips_missing_witness :
    mean ([none, none] : List (Option ℚ)) = none ∧
    median ([none, none] : List (Option ℚ)) = none :=
  summarize_skips_missing.2.2.2 [none, none] (by decide)

/-- C8: `coerce` (`pd.to_numeric(errors='coerce')`) returns a series of the
same length as the source column, with the entry at each position the
coercion of the source entry at that position (unconvertible entries become
the missing marker) — never truncating or raising. -/
theorem coerce_preserves_length_and_positions :
    ∀ col : List Cell,
      (to_numeric col).length = col.length ∧
      ∀ i : ℕ, (to_numeric col)[i]? = col[i]?.map coerceCell := by
  intro col
  exact ⟨List.length_map col coerceCell, fun i => List.getElem?_map coerceCell col i⟩

/-- C9: a bar-chart render plots exactly the first `min 100 n` present
values (where `n` counts the present values), in original order, truncating
the remainder. -/
theorem bar_chart_truncates_to_first_100 :
    ∀ s : List (Option ℚ),
      barData s = (dropna s).take 100 ∧
      (barData s).length = min 100 (dropna s).length ∧
      (barData s).length ≤ 100 := by
  intro s
  refine ⟨rfl, List.length_take 100 (dropna s), ?_⟩
  rw [barData, List.length_take]
  exact min_le_left _ _

/-- C10: the column classifier is total on an absent (`none`) table: it
returns the empty list, the same answer it gives for a zero-column table. -/
theorem classifier_total_on_absent_table :
    list_numeric_columns none = [] ∧
    list_numeric_columns (some ([] : Table)) = [] ∧
    list_numeric_columns none = list_numeric_columns (some ([] : Table)) :=
  ⟨rfl, rfl, rfl⟩

/-- C6: whatever the two read attempts raise, `load_csv` converts it into a
classified outcome — the caller always receives either a table or a tagged
failure, and an otherwise-unclassified exception becomes the `unknown`
failure carrying its detail message. -/
theorem loader_never_raises :
    ∀ (p pl : List ℕ → Except PdErr Table) (input : Option (List ℕ)),
      ((∃ t, load_csv_with p pl input = .success t) ∨
        (∃ k m, load_csv_with p pl input = .failure k m)) ∧
      (∀ bytes msg, input = some bytes → p bytes = .error (.other msg) →
        load_csv_with p pl input =
          .failure .unknown ("Impossible de lire le fichier CSV: " ++ msg)) := by
  intro p pl input
  constructor
  · match input with
    | none => exact Or.inr ⟨.noFile, "Aucun fichier fourni.", rfl⟩
    | some bytes =>
      match h : p bytes with
      | .ok df => exact Or.inl ⟨df, by simp [load_csv_with, h]⟩
      | .error .emptyDataError =>
        exact Or.inr ⟨.emptyData, "Le fichier CSV est vide.", by simp [load_csv_with, h]⟩
      | .error .unicodeDecodeError =>
        match h2 : pl bytes with
        | .ok df => exact Or.inl ⟨df, by simp [load_csv_with, h, h2]⟩
        | .error e =>
          exact Or.inr ⟨.encodingError, encodingMsg, by simp [load_csv_with, h, h2]⟩
      | .error .parserError =>
        exact Or.inr ⟨.parseError, "Erreur analyse du CSV (format invalide).",
          by simp [load_csv_with, h]⟩
      | .error (.other msg) =>
        exact Or.inr ⟨.unknown, "Impossible de lire le fichier CSV: " ++ msg,
          by simp [load_csv_with, h]⟩
  · rintro bytes msg rfl hp
    simp [load_csv_with, hp]

/-- Witness for C6: a reader raising an unclassified exception yields the
tagged `unknown` failure. -/
theorem loader_never_raises_witness :
    load_csv_with (fun _ => .error (.other "boom")) (fun _ => .error .emptyDataError)
        (some []) =
      .failure .unknown ("Impossible de lire le fichier CSV: " ++ "boom") :=
  (loader_never_raises (fun _ => .error (.other "boom"))
    (fun _ => .error .emptyDataError) (some [])).2 [] "boom" rfl rfl

/-- C4 (amended): an absent handle gives `Failure(NoFile)`, a parse with
zero columns (for example a zero-byte stream) gives `Failure(EmptyData)`,
and every successful load has at least one column — but a zero-row parse
with columns is a success, not a failure. -/
theorem load_failure_on_zero_columns :
    load_csv none = .failure .noFile "Aucun fichier fourni." ∧
    load_csv (some []) = .failure .emptyData "Le fichier CSV est vide." ∧
    ∀ (bytes : List ℕ) (t : Table), load_csv (some bytes) = .success t → t ≠ [] := by
  refine ⟨rfl, by decide, ?_⟩
  intro bytes t h
  simp only [load_csv, load_csv_with] at h
  cases hp : parseDefault bytes with
  | ok df =>
    rw [hp] at h
    simp only [Except.ok.injEq] at h
    cases h
    exact parsePandas_ok_ne_nil utf8Decode bytes t hp
  | error e =>
    rw [hp] at h
    cases e with
    | emptyDataError => simp at h
    | parserError => simp at h
    | other m => simp at h
    | unicodeDecodeError =>
      cases hl : parseLatin bytes with
      | ok df =>
        rw [hl] at h
        simp only [Except.ok.injEq] at h
        cases h
        exact parsePandas_ok_ne_nil (fun bs => some (latin1Decode bs)) bytes t hl
      | error e2 => rw [hl] at h; simp at h

/-- Witness for C4's success clause at a concrete non-numeric CSV. -/
theorem load_failure_on_zero_columns_witness :
    ([⟨"a", Dtype.object, [Cell.str "x"]⟩] : Table) ≠ [] :=
  load_failure_on_zero_columns.2.2 (asciiBytes "a\nx\n")
    [⟨"a", Dtype.object, [Cell.str "x"]⟩] (by decide)

/-- C4 counterexample: the header-only stream `"a,b\n"` parses to zero rows
yet `load_csv` returns `Success` with the empty two-column table, so "zero
rows implies Failure" is false on the code. -/
theorem load_zero_rows_success_cex :
    load_csv (some (asciiBytes "a,b\n")) =
      .success [⟨"a", Dtype.object, []⟩, ⟨"b", Dtype.object, []⟩] ∧
    rowCount [⟨"a", Dtype.object, []⟩, ⟨"b", Dtype.object, []⟩] = 0 :=
  ⟨by decide, rfl⟩

/-- C2 (amended): for raw columns with at least one row, the classifier
marks exactly those columns numeric whose every non-missing raw entry
parses as a number — the output is the name list of precisely those
columns, in order.  (Zero-row columns are excluded: they get `object`
dtype and are never marked numeric.) -/
theorem classify_numeric_iff_values_numeric :
    ∀ (rawCols : List (String × List (Option String))),
      (∀ c ∈ rawCols, c.2 ≠ []) →
      list_numeric_columns (some (rawCols.map (fun c => inferCol c.1 c.2))) =
        (rawCols.filter (fun c => c.2.all fieldIsNumericOrMissing)).map (fun c => c.1) := by
  intro rawCols
  induction rawCols with
  | nil => intro _; rfl
  | cons c cs ih =>
    intro h
    have hc : c.2 ≠ [] := h c (List.mem_cons_self c cs)
    have ihe := ih (fun x hx => h x (List.mem_cons_of_mem c hx))
    have hemp : c.2.isEmpty = false := by
      cases hc2 : c.2 with
      | nil => exact absurd hc2 hc
      | cons a l => rfl
    simp only [list_numeric_columns] at ihe ⊢
    by_cases hall : c.2.all fieldIsNumericOrMissing = true
    · have hdt : (inferCol c.1 c.2).dtype = Dtype.numeric := by
        rw [inferCol_dtype, hemp, hall]
        rfl
      rw [List.map_cons, List.filter_cons, List.filter_cons]
      simp [hdt, hall, inferCol_name, ihe]
    · have hdt : (inferCol c.1 c.2).dtype = Dtype.object := by
        rw [inferCol_dtype]
        simp [hall]
      rw [List.map_cons, List.filter_cons, List.filter_cons]
      simp [hdt, hall, ihe]

/-- Witness for C2 at three concrete columns: all-numeric, mixed, and
numeric-with-missing. -/
theorem classify_numeric_iff_values_numeric_witness :
    list_numeric_columns
        (some ((([("a", [some "1", some "2.5"]), ("b", [some "1", some "x"]),
            ("c", [none, some "3"])] : List (String × List (Option String)))).map
          (fun c => inferCol c.1 c.2))) =
      ((([("a", [some "1", some "2.5"]), ("b", [some "1", some "x"]),
            ("c", [none, some "3"])] : List (String × List (Option String)))).filter
        (fun c => c.2.all fieldIsNumericOrMissing)).map (fun c => c.1) :=
  classify_numeric_iff_values_numeric _ (by decide)

/-- C2 counterexample: the loadable header-only stream `"a\n"` yields a
zero-row column in which every non-missing value is (vacuously)
interpretable as a number, yet the classifier does not mark it numeric —
so "numeric exactly when every non-missing value is numeric" fails. -/
theorem classify_zero_row_column_cex :
    load_csv (some (asciiBytes "a\n")) = .success [⟨"a", Dtype.object, []⟩] ∧
    (([] : List (Option String)).all fieldIsNumericOrMissing = true) ∧
    "a" ∉ list_numeric_columns (some [⟨"a", Dtype.object, []⟩]) :=
  ⟨by decide, rfl, by decide⟩

/-- C5 (code bug): the download button serializes the full loaded table,
not the displayed head-truncated one — on a six-row table displayed with
`max_rows = 5` the payload differs from the serialization of the displayed
table. -/
theorem download_serializes_full_table_bug :
    load_csv (some (asciiBytes "a\nx\ny\nz\nu\nv\nw\n")) = .success sixRowTable ∧
    rowCount sixRowTable = 6 ∧
    rowCount (tableHead 5 sixRowTable) = 5 ∧
    downloadPayload sixRowTable ≠ to_csv (tableHead 5 sixRowTable) :=
  ⟨by decide, rfl, rfl, by decide⟩

end CSVApp
